import Mathlib

/-!
Verification development for the `doku-payment-gateway` TypeScript package.

The embedding models, over `Nat`-valued bytes and Lean `String`s:
* `src/utils/signature.ts` — `generateDigest`, `generateSignature`
  (the crypto-js primitives SHA-256, HMAC-SHA256 and Base64 are embedded
  as executable functions implementing their standard algorithms);
* `src/DokuClient.ts` — the constructor, `validateSignature`,
  `fetchWithRetry` and `createPayment`;
* `src/schema.ts` — the zod schemas `PaymentRequestSchema` and
  `ConfigSchema` (zod's email/URL format checks are external library
  behaviour and are taken as parameters).

Effects are made explicit: thrown JavaScript errors become `Except`,
`fetch` becomes an oracle from the attempt number to an outcome, and the
generated UUID and timestamp are ordinary arguments.
-/

namespace Doku

/-! ## Bytes and UTF-8 encoding -/

/-- UTF-8 encoding of a single Unicode code point, as a list of bytes. -/
def utf8EncodeChar (c : Nat) : List Nat :=
  if c < 128 then [c]
  else if c < 2048 then [192 + c / 64, 128 + c % 64]
  else if c < 65536 then [224 + c / 4096, 128 + c / 64 % 64, 128 + c % 64]
  else [240 + c / 262144, 128 + c / 4096 % 64, 128 + c / 64 % 64, 128 + c % 64]

/-- UTF-8 encoding of a string as a list of byte values (crypto-js parses
string inputs with its `Utf8` encoder). -/
def utf8Encode (s : String) : List Nat :=
  (s.data.map (fun c => utf8EncodeChar c.toNat)).flatten

/-! ## SHA-256 -/

/-- Right rotation of a 32-bit word represented as a `Nat` below `2 ^ 32`. -/
def rotr32 (n w : Nat) : Nat :=
  w / 2 ^ n + w % 2 ^ n * 2 ^ (32 - n)

/-- Bitwise complement on 32-bit words. -/
def not32 (w : Nat) : Nat := w ^^^ (2 ^ 32 - 1)

def ch (e f g : Nat) : Nat := (e &&& f) ^^^ (not32 e &&& g)

def maj (a b c : Nat) : Nat := (a &&& b) ^^^ (a &&& c) ^^^ (b &&& c)

def bigSigma0 (a : Nat) : Nat := rotr32 2 a ^^^ rotr32 13 a ^^^ rotr32 22 a

def bigSigma1 (e : Nat) : Nat := rotr32 6 e ^^^ rotr32 11 e ^^^ rotr32 25 e

def smallSigma0 (w : Nat) : Nat := rotr32 7 w ^^^ rotr32 18 w ^^^ (w / 2 ^ 3)

def smallSigma1 (w : Nat) : Nat := rotr32 17 w ^^^ rotr32 19 w ^^^ (w / 2 ^ 10)

/-- The SHA-256 round constants. -/
def sha256K : List Nat :=
  [1116352408, 1899447441, 3049323471,
   3921009573, 961987163, 1508970993,
   2453635748, 2870763221, 3624381080,
   310598401, 607225278, 1426881987,
   1925078388, 2162078206, 2614888103,
   3248222580, 3835390401, 4022224774,
   264347078, 604807628, 770255983,
   1249150122, 1555081692, 1996064986,
   2554220882, 2821834349, 2952996808,
   3210313671, 3336571891, 3584528711,
   113926993, 338241895, 666307205,
   773529912, 1294757372, 1396182291,
   1695183700, 1986661051, 2177026350,
   2456956037, 2730485921, 2820302411,
   3259730800, 3345764771, 3516065817,
   3600352804, 4094571909, 275423344,
   430227734, 506948616, 659060556,
   883997877, 958139571, 1322822218,
   1537002063, 1747873779, 1955562222,
   2024104815, 2227730452, 2361852424,
   2428436474, 2756734187, 3204031479,
   3329325298]

/-- The eight working variables of the SHA-256 compression function. -/
structure Sha256State where
  a : Nat
  b : Nat
  c : Nat
  d : Nat
  e : Nat
  f : Nat
  g : Nat
  h : Nat

/-- The SHA-256 initial hash value. -/
def sha256Init : Sha256State :=
  { a := 1779033703, b := 3144134277, c := 1013904242, d := 2773480762,
    e := 1359893119, f := 2600822924, g := 528734635, h := 1541459225 }

/-- One SHA-256 round; `kw` pairs the schedule word with the round constant. -/
def sha256Round (s : Sha256State) (wk : Nat × Nat) : Sha256State :=
  let t1 := (s.h + bigSigma1 s.e + ch s.e s.f s.g + wk.2 + wk.1) % 2 ^ 32
  let t2 := (bigSigma0 s.a + maj s.a s.b s.c) % 2 ^ 32
  { a := (t1 + t2) % 2 ^ 32, b := s.a, c := s.b, d := s.c,
    e := (s.d + t1) % 2 ^ 32, f := s.e, g := s.f, h := s.g }

/-- Group a byte list into big-endian 32-bit words. -/
def bytesToWords : List Nat → List Nat
  | b0 :: b1 :: b2 :: b3 :: rest =>
    (((b0 * 256 + b1) * 256 + b2) * 256 + b3) :: bytesToWords rest
  | _ => []

def sha256ExtendStep (w : List Nat) (t : Nat) : Nat :=
  (smallSigma1 (w.getD (t - 2) 0) + w.getD (t - 7) 0 +
    smallSigma0 (w.getD (t - 15) 0) + w.getD (t - 16) 0) % 2 ^ 32

/-- Extend the 16 block words to the 64-word message schedule. -/
def sha256Schedule (w16 : List Nat) : List Nat :=
  (List.range 48).foldl (fun w i => w ++ [sha256ExtendStep w (16 + i)]) w16

/-- Compress one 64-byte block into the running state. -/
def sha256Compress (s : Sha256State) (block : List Nat) : Sha256State :=
  let w := sha256Schedule (bytesToWords block)
  let t := (w.zip sha256K).foldl sha256Round s
  { a := (s.a + t.a) % 2 ^ 32, b := (s.b + t.b) % 2 ^ 32,
    c := (s.c + t.c) % 2 ^ 32, d := (s.d + t.d) % 2 ^ 32,
    e := (s.e + t.e) % 2 ^ 32, f := (s.f + t.f) % 2 ^ 32,
    g := (s.g + t.g) % 2 ^ 32, h := (s.h + t.h) % 2 ^ 32 }

/-- The message length in bits as eight big-endian bytes. -/
def lengthBytes (n : Nat) : List Nat :=
  [n / 2 ^ 56 % 256, n / 2 ^ 48 % 256, n / 2 ^ 40 % 256, n / 2 ^ 32 % 256,
   n / 2 ^ 24 % 256, n / 2 ^ 16 % 256, n / 2 ^ 8 % 256, n % 256]

/-- SHA-256 padding: `0x80`, zeros to 56 mod 64, then the bit length. -/
def sha256Pad (msg : List Nat) : List Nat :=
  msg ++ [128] ++ List.replicate ((119 - msg.length % 64) % 64) 0 ++
    lengthBytes (8 * msg.length)

/-- Split a byte list into 64-byte blocks. -/
def toBlocks (l : List Nat) : List (List Nat) :=
  if h : l = [] then [] else l.take 64 :: toBlocks (l.drop 64)
termination_by l.length
decreasing_by
  simp only [List.length_drop]
  have := List.length_pos.mpr h
  omega

/-- Split a 32-bit word into four big-endian bytes. -/
def wordBytes (w : Nat) : List Nat :=
  [w / 2 ^ 24 % 256, w / 2 ^ 16 % 256, w / 2 ^ 8 % 256, w % 256]

def wordsToBytes (ws : List Nat) : List Nat := (ws.map wordBytes).flatten

/-- SHA-256 of a byte list, as a list of 32 bytes. -/
def sha256 (msg : List Nat) : List Nat :=
  let final := (toBlocks (sha256Pad msg)).foldl sha256Compress sha256Init
  wordsToBytes [final.a, final.b, final.c, final.d,
                final.e, final.f, final.g, final.h]

/-! ## Base64 -/

def base64Table : List Char :=
  "ABCDEFGHIJKLMNOPQRSTUVWXYZabcdefghijklmnopqrstuvwxyz0123456789+/".data

def b64c (n : Nat) : Char := base64Table.getD n 'A'

/-- Standard Base64 encoding with padding (crypto-js `enc.Base64`). -/
def base64Encode : List Nat → String
  | [] => ""
  | [b1] => String.mk [b64c (b1 / 4), b64c (b1 % 4 * 16)] ++ "=="
  | [b1, b2] =>
    String.mk [b64c (b1 / 4), b64c (b1 % 4 * 16 + b2 / 16),
               b64c (b2 % 16 * 4)] ++ "="
  | b1 :: b2 :: b3 :: rest =>
    String.mk [b64c (b1 / 4), b64c (b1 % 4 * 16 + b2 / 16),
               b64c (b2 % 16 * 4 + b3 / 64), b64c (b3 % 64)] ++
      base64Encode rest

/-! ## HMAC-SHA256 -/

/-- HMAC-SHA256 with a 64-byte block size (crypto-js `HmacSHA256`). -/
def hmacSHA256 (key msg : List Nat) : List Nat :=
  let k0 := if 64 < key.length then sha256 key else key
  let kp := k0 ++ List.replicate (64 - k0.length) 0
  sha256 (kp.map (fun b => b ^^^ 92) ++ sha256 (kp.map (fun b => b ^^^ 54) ++ msg))

/-! ## The signature module (`src/utils/signature.ts`) -/

/-- Embeds `generateDigest`: Base64 of the SHA-256 of the body string. -/
def generateDigest (jsonBody : String) : String :=
  base64Encode (sha256 (utf8Encode jsonBody))

/-- The `componentSignature` string built line by line inside
`generateSignature`; the `Digest` line is added only when `digest` is a
truthy (non-empty) string. -/
def signatureComponent (clientId requestId requestTarget digest
    requestTimestamp : String) : String :=
  let componentSignature := "Client-Id:" ++ clientId
  let componentSignature := componentSignature ++ "\n"
  let componentSignature := componentSignature ++ ("Request-Id:" ++ requestId)
  let componentSignature := componentSignature ++ "\n"
  let componentSignature :=
    componentSignature ++ ("Request-Timestamp:" ++ requestTimestamp)
  let componentSignature := componentSignature ++ "\n"
  let componentSignature :=
    componentSignature ++ ("Request-Target:" ++ requestTarget)
  if digest ≠ "" then
    let componentSignature := componentSignature ++ "\n"
    componentSignature ++ ("Digest:" ++ digest)
  else componentSignature

/-- Embeds `generateSignature`: the algorithm tag followed by the Base64
HMAC-SHA256, keyed by `secretKey`, of the component string. -/
def generateSignature (clientId requestId requestTarget digest secretKey
    requestTimestamp : String) : String :=
  "HMACSHA256=" ++
    base64Encode (hmacSHA256 (utf8Encode secretKey)
      (utf8Encode
        (signatureComponent clientId requestId requestTarget digest
          requestTimestamp)))

/-! ## A model of JavaScript JSON values -/

/-- JSON values as they appear in request and response bodies. -/
inductive Json where
  | null : Json
  | bool : Bool → Json
  | num : Int → Json
  | str : String → Json
  | arr : List Json → Json
  | obj : List (String × Json) → Json

/-- JavaScript truthiness of a JSON value. -/
def jsTruthy : Json → Bool
  | Json.null => false
  | Json.bool b => b
  | Json.num n => n != 0
  | Json.str s => s != ""
  | Json.arr _ => true
  | Json.obj _ => true

/-- Optional-chaining property access `v?.key`: a value on object fields,
`undefined` (`none`) on anything else. -/
def Json.get? : Json → String → Option Json
  | Json.obj fields, key => fields.lookup key
  | _, _ => none

def jsPath2 (j : Json) (k1 k2 : String) : Option Json :=
  (j.get? k1).bind (fun x => Json.get? x k2)

def jsPath3 (j : Json) (k1 k2 k3 : String) : Option Json :=
  (jsPath2 j k1 k2).bind (fun x => Json.get? x k3)

/-- JavaScript `a || b` where `a` may be `undefined` and the result may be
`undefined`. -/
def jsOrOpt (a b : Option Json) : Option Json :=
  match a with
  | some v => if jsTruthy v then some v else b
  | none => b

/-- JavaScript `a || d` with a defined fallback. -/
def jsOrJ (a : Option Json) (d : Json) : Json :=
  match a with
  | some v => if jsTruthy v then v else d
  | none => d

/-- JavaScript `s || d` on strings (empty is falsy). -/
def jsOrS (s d : String) : String := if s = "" then d else s

/-- JavaScript `n || d` on numbers (`0` is falsy). -/
def jsOrInt (x : Option Int) (d : Int) : Int :=
  match x with
  | some v => if v = 0 then d else v
  | none => d

/-! ## Errors and the zod schemas (`src/schema.ts`) -/

/-- A thrown JavaScript `Error`, reduced to its `message`. -/
structure JsError where
  message : String

/-- A zod validation failure carrying its issue messages. -/
structure ZodError where
  issues : List String

/-- Models `ZodError.message`: zod aggregates the issue messages into one string;
it is non-empty whenever there is at least one issue (zod serializes the
issue list, so even its shortest form is non-empty text). -/
def zodMessage (e : ZodError) : String := String.intercalate "; " e.issues

/-- Anything the `try` block of `createPayment` can throw. -/
inductive Thrown where
  | zod : ZodError → Thrown
  | js : JsError → Thrown

/-- Reads `error?.message` on a thrown value. -/
def thrownMessage : Thrown → String
  | Thrown.zod e => zodMessage e
  | Thrown.js e => e.message

/-- The caller-facing payment request (`DokuPaymentRequest` in
`src/types.ts`); optional fields are `Option`s. -/
structure DokuPaymentRequest where
  orderId : String
  amount : Int
  customerName : String
  customerEmail : String
  customerPhone : String
  description : Option String
  returnUrl : String
  expiredTime : Option Int
  paymentMethodTypes : Option (List String)

/-- The issue list produced by `PaymentRequestSchema` in field order.
zod's email and URL format checks are external library behaviour and are
taken as the parameters `emailOk` and `urlOk`. -/
def paymentRequestIssues (emailOk urlOk : String → Bool)
    (d : DokuPaymentRequest) : List String :=
  (if d.orderId.length < 1 then ["Order ID is required"] else []) ++
  (if d.amount ≤ 0 then ["Amount must be positive"] else []) ++
  (if d.customerName.length < 1 then ["Customer name is required"] else []) ++
  (if emailOk d.customerEmail then [] else ["Invalid email address"]) ++
  (if d.customerPhone.length < 1 then ["Phone number is required"] else []) ++
  (if urlOk d.returnUrl then [] else ["Invalid return URL"]) ++
  (match d.expiredTime with
   | some t => if t ≤ 0 then ["Expired time must be positive"] else []
   | none => [])

/-- Embeds `PaymentRequestSchema.parse`: the validated value on success, a thrown
`ZodError` otherwise. -/
def paymentRequestParse (emailOk urlOk : String → Bool)
    (d : DokuPaymentRequest) : Except ZodError DokuPaymentRequest :=
  if paymentRequestIssues emailOk urlOk d = [] then Except.ok d
  else Except.error ⟨paymentRequestIssues emailOk urlOk d⟩

/-! ## The HTTP response model and `fetchWithRetry` -/

/-- A `fetch` `Response`: its status and the outcome of `response.json()`
(`Except.error` when the body is not valid JSON). -/
structure Response where
  status : Nat
  jsonBody : Except JsError Json

/-- Derives `response.ok` per the fetch specification: status in `[200, 300)`. -/
def responseOk (r : Response) : Bool := 200 ≤ r.status && r.status < 300

/-- The default value of the `retries` parameter of `fetchWithRetry`. -/
def defaultRetries : Nat := 3

/-- Embeds `fetchWithRetry`: the transport is an oracle from the attempt number
`k` to that attempt's outcome. A thrown fetch error or a 5xx status is
retried while budget remains; everything else is returned as-is, and an
error with no budget left is rethrown. -/
def fetchWithRetry (transport : Nat → Except JsError Response) :
    Nat → Nat → Except JsError Response
  | retries, k =>
    match transport k with
    | Except.ok response =>
      if responseOk response then Except.ok response
      else
        match retries with
        | 0 => Except.ok response
        | n + 1 =>
          if 500 ≤ response.status then fetchWithRetry transport n (k + 1)
          else Except.ok response
    | Except.error e =>
      match retries with
      | 0 => Except.error e
      | n + 1 => fetchWithRetry transport n (k + 1)

/-- The number of transport attempts `fetchWithRetry` makes, mirroring its
control flow: with no budget left every outcome ends after the single
attempt; otherwise a 5xx status or a thrown error adds the attempts of the
recursive call. -/
def fetchAttempts (transport : Nat → Except JsError Response) :
    Nat → Nat → Nat
  | 0, _ => 1
  | n + 1, k =>
    match transport k with
    | Except.ok response =>
      if responseOk response then 1
      else if 500 ≤ response.status then 1 + fetchAttempts transport n (k + 1)
      else 1
    | Except.error _ => 1 + fetchAttempts transport n (k + 1)

/-! ## The client configuration and constructor -/

/-- The validated client configuration (`DokuConfig`). -/
structure DokuConfig where
  clientId : String
  secretKey : String
  isProduction : Bool

/-- The raw constructor argument before validation; `isProduction` is kept
as a JSON value so that non-boolean inputs are representable. -/
structure RawConfig where
  clientId : String
  secretKey : String
  isProduction : Json

/-- The issue list produced by `ConfigSchema` in field order. -/
def configIssues (c : RawConfig) : List String :=
  (if c.clientId.length < 1 then ["Client ID is required"] else []) ++
  (if c.secretKey.length < 1 then ["Secret Key is required"] else []) ++
  (match c.isProduction with
   | Json.bool _ => []
   | _ => ["Expected boolean"])

/-- Embeds `ConfigSchema.parse`. When it succeeds, `isProduction` is a JSON
boolean and its value is stored. -/
def configParse (c : RawConfig) : Except ZodError DokuConfig :=
  if configIssues c = [] then
    Except.ok { clientId := c.clientId, secretKey := c.secretKey,
                isProduction := jsTruthy c.isProduction }
  else Except.error ⟨configIssues c⟩

/-- A constructed client: the validated config plus the base URL. -/
structure DokuClient where
  config : DokuConfig
  baseUrl : String

/-- The `DokuClient` constructor: parse the config (throwing on failure),
then pick the base URL from the raw `isProduction` flag. -/
def dokuClientNew (config : RawConfig) : Except ZodError DokuClient :=
  match configParse config with
  | Except.error e => Except.error e
  | Except.ok validatedConfig =>
    Except.ok { config := validatedConfig,
                baseUrl := if jsTruthy config.isProduction then
                    "https://api.doku.com"
                  else "https://api-sandbox.doku.com" }

/-! ## `validateSignature` and `generateHeaders` -/

/-- The four inbound header values handed to `validateSignature`. -/
structure SignatureHeaders where
  signature : String
  timestamp : String
  requestId : String
  clientId : String

/-- Embeds `DokuClient.validateSignature`. -/
def validateSignature (config : DokuConfig) (body : String)
    (headers : SignatureHeaders) (requestTarget : String) : Bool :=
  if headers.signature = "" || headers.timestamp = "" ||
      headers.requestId = "" || headers.clientId = "" then false
  else if headers.clientId != config.clientId then false
  else
    let digest := generateDigest body
    let calculatedSignature :=
      generateSignature headers.clientId headers.requestId requestTarget
        digest config.secretKey headers.timestamp
    calculatedSignature == headers.signature

/-- The outbound request headers. -/
structure RequestHeaders where
  contentType : String
  clientId : String
  requestId : String
  requestTimestamp : String
  signature : String

/-- Embeds `DokuClient.generateHeaders`. -/
def generateHeaders (config : DokuConfig) (requestId requestTimestamp
    requestTarget body : String) : RequestHeaders :=
  let digest := generateDigest body
  let signature := generateSignature config.clientId requestId requestTarget
    digest config.secretKey requestTimestamp
  { contentType := "application/json", clientId := config.clientId,
    requestId := requestId, requestTimestamp := requestTimestamp,
    signature := signature }

/-! ## `createPayment` -/

/-- The `order` section of the provider request body. -/
structure OrderBody where
  amount : Int
  invoice_number : String
  currency : String
  callback_url : String

/-- The `payment` section of the provider request body. -/
structure PaymentBody where
  payment_due_date : Int
  payment_method_types : List String

/-- The `customer` section of the provider request body. -/
structure CustomerBody where
  id : String
  name : String
  phone : String
  country : String

/-- The provider request body assembled by `createPayment`. -/
structure RequestBody where
  order : OrderBody
  payment : PaymentBody
  customer : CustomerBody

/-- The `defaultPaymentMethods` list from `createPayment`. -/
def defaultPaymentMethods : List String :=
  ["VIRTUAL_ACCOUNT_BCA",
   "VIRTUAL_ACCOUNT_BANK_MANDIRI",
   "VIRTUAL_ACCOUNT_BANK_SYARIAH_MANDIRI",
   "VIRTUAL_ACCOUNT_DOKU",
   "VIRTUAL_ACCOUNT_BRI",
   "VIRTUAL_ACCOUNT_BNI",
   "VIRTUAL_ACCOUNT_BANK_PERMATA",
   "VIRTUAL_ACCOUNT_BANK_CIMB",
   "VIRTUAL_ACCOUNT_BANK_DANAMON",
   "ONLINE_TO_OFFLINE_ALFA",
   "CREDIT_CARD",
   "DIRECT_DEBIT_BRI",
   "EMONEY_SHOPEEPAY",
   "EMONEY_OVO",
   "QRIS",
   "PEER_TO_PEER_AKULAKU",
   "PEER_TO_PEER_KREDIVO",
   "PEER_TO_PEER_INDODANA"]

/-- Embeds `requestId.slice(0, 8)`. -/
def strSlice8 (s : String) : String := String.mk (s.data.take 8)

/-- The request-body construction in `createPayment`: `expiredTime` is
read from the raw input with `|| 60`, the method list comes from the
validated input with the default list as `||` fallback (an empty list is
truthy and kept), and the customer id falls back to a `GUEST-` id when
`customerEmail` is falsy. -/
def buildRequestBody (validatedData paymentData : DokuPaymentRequest)
    (requestId : String) : RequestBody :=
  let expiredTime := jsOrInt paymentData.expiredTime 60
  { order := { amount := validatedData.amount,
               invoice_number := validatedData.orderId,
               currency := "IDR",
               callback_url := validatedData.returnUrl },
    payment := { payment_due_date := expiredTime,
                 payment_method_types :=
                   validatedData.paymentMethodTypes.getD
                     defaultPaymentMethods },
    customer := { id := jsOrS validatedData.customerEmail
                    ("GUEST-" ++ strSlice8 requestId),
                  name := validatedData.customerName,
                  phone := validatedData.customerPhone,
                  country := "ID" } }

def jsonEscape (s : String) : String :=
  s.data.foldl
    (fun acc c =>
      acc ++ (if c == '\"' then "\\\""
              else if c == '\\' then "\\\\"
              else if c == '\n' then "\\n"
              else String.mk [c])) ""

def jsonQuote (s : String) : String := "\"" ++ jsonEscape s ++ "\""

/-- Embeds `JSON.stringify(requestBody)`: serialization in insertion order with
no extra whitespace. -/
def stringifyRequestBody (b : RequestBody) : String :=
  "\x7b\"order\":\x7b\"amount\":" ++ toString b.order.amount ++
  ",\"invoice_number\":" ++ jsonQuote b.order.invoice_number ++
  ",\"currency\":" ++ jsonQuote b.order.currency ++
  ",\"callback_url\":" ++ jsonQuote b.order.callback_url ++
  "\x7d,\"payment\":\x7b\"payment_due_date\":" ++
    toString b.payment.payment_due_date ++
  ",\"payment_method_types\":[" ++
    String.intercalate "," (b.payment.payment_method_types.map jsonQuote) ++
  "]\x7d,\"customer\":\x7b\"id\":" ++ jsonQuote b.customer.id ++
  ",\"name\":" ++ jsonQuote b.customer.name ++
  ",\"phone\":" ++ jsonQuote b.customer.phone ++
  ",\"country\":" ++ jsonQuote b.customer.country ++ "\x7d\x7d"

/-- Embeds `result.response?.payment?.url || result.payment?.url`. -/
def extractPaymentUrl (result : Json) : Option Json :=
  jsOrOpt (jsPath3 result "response" "payment" "url")
    (jsPath2 result "payment" "url")

/-- Embeds `result.response?.order?.invoice_number || result.order?.invoice_number`. -/
def extractInvoiceNumber (result : Json) : Option Json :=
  jsOrOpt (jsPath3 result "response" "order" "invoice_number")
    (jsPath2 result "order" "invoice_number")

/-- Embeds `result.response?.order?.amount || result.order?.amount`. -/
def extractAmount (result : Json) : Option Json :=
  jsOrOpt (jsPath3 result "response" "order" "amount")
    (jsPath2 result "order" "amount")

/-- The diagnostic payload stored in `details`. -/
inductive Diag where
  | json : Json → Diag
  | thrown : Thrown → Diag

/-- The caller-facing result (`DokuPaymentResponse`); fields the code may
leave `undefined` are `Option`s. -/
structure DokuPaymentResponse where
  success : Bool
  paymentUrl : Option Json
  invoiceNumber : Option Json
  amount : Option Json
  message : Option Json
  details : Option Diag

/-- The `try` block of `createPayment`. The generated UUID and timestamp
are the arguments `requestId` and `requestTimestamp`; `transport` models
`fetch` for the fixed signed request. -/
def createPaymentTry (config : DokuConfig) (emailOk urlOk : String → Bool)
    (paymentData : DokuPaymentRequest) (requestId requestTimestamp : String)
    (transport : Nat → Except JsError Response) :
    Except Thrown DokuPaymentResponse :=
  match paymentRequestParse emailOk urlOk paymentData with
  | Except.error e => Except.error (Thrown.zod e)
  | Except.ok validatedData =>
    let requestTarget := "/checkout/v1/payment"
    let requestBody := buildRequestBody validatedData paymentData requestId
    let requestBodyString := stringifyRequestBody requestBody
    let _headers := generateHeaders config requestId requestTimestamp
      requestTarget requestBodyString
    match fetchWithRetry transport defaultRetries 0 with
    | Except.error e => Except.error (Thrown.js e)
    | Except.ok response =>
      if !responseOk response then
        match response.jsonBody with
        | Except.error e => Except.error (Thrown.js e)
        | Except.ok errorData =>
          Except.ok
            { success := false, paymentUrl := none, invoiceNumber := none,
              amount := none,
              message := some (jsOrJ (jsPath2 errorData "error" "message")
                (Json.str "Failed to create payment")),
              details := some (Diag.json errorData) }
      else
        match response.jsonBody with
        | Except.error e => Except.error (Thrown.js e)
        | Except.ok result =>
          Except.ok
            { success := true,
              paymentUrl := extractPaymentUrl result,
              invoiceNumber := extractInvoiceNumber result,
              amount := extractAmount result,
              message := none, details := none }

/-- Embeds `createPayment`: the `try` block plus the top-level `catch`, which
converts any thrown value into a failed result with
`message = error?.message || "Internal server error"` and
`details = error`. -/
def createPayment (config : DokuConfig) (emailOk urlOk : String → Bool)
    (paymentData : DokuPaymentRequest) (requestId requestTimestamp : String)
    (transport : Nat → Except JsError Response) : DokuPaymentResponse :=
  match createPaymentTry config emailOk urlOk paymentData requestId
      requestTimestamp transport with
  | Except.ok r => r
  | Except.error err =>
    { success := false, paymentUrl := none, invoiceNumber := none,
      amount := none,
      message := some (Json.str (jsOrS (thrownMessage err)
        "Internal server error")),
      details := some (Diag.thrown err) }

/-! ## Auxiliary definitions for the verification -/

/-- The canonical string as the specification words it (§4.1): the four
fixed lines joined by `\n` with no trailing newline, and the `Digest`
line appended exactly when `digest` is non-empty. Stated independently of
`signatureComponent` so the two can be compared. -/
def canonicalSpec (clientId requestId timestamp targetPath digest :
    String) : String :=
  "Client-Id:" ++ clientId ++ "\n" ++ "Request-Id:" ++ requestId ++ "\n" ++
    "Request-Timestamp:" ++ timestamp ++ "\n" ++
    "Request-Target:" ++ targetPath ++
    (if digest = "" then "" else "\n" ++ "Digest:" ++ digest)

/-- Big-endian base-256 value of a byte list; injective on byte lists of
a fixed length. -/
def ofBytes : List Nat → Nat
  | [] => 0
  | b :: t => b * 256 ^ t.length + ofBytes t

/-- The configuration used by the repository's test-suite. -/
def cfgSample : DokuConfig :=
  { clientId := "TEST-CLIENT-ID", secretKey := "TEST-SECRET-KEY",
    isProduction := false }

/-- The valid payment input used by the repository's test-suite. -/
def samplePayment : DokuPaymentRequest :=
  { orderId := "INV-123", amount := 10000, customerName := "John Doe",
    customerEmail := "john@example.com", customerPhone := "08123456789",
    description := none, returnUrl := "https://example.com/callback",
    expiredTime := none, paymentMethodTypes := none }

/-- A format predicate that accepts everything (stands in for zod's email
and URL checks on inputs they accept). -/
def allOk : String → Bool := fun _ => true

/-- A transport that always rejects with `Error("Network Error")`, as in
the repository's retry-exhaustion test. -/
def networkFailTransport : Nat → Except JsError Response :=
  fun _ => Except.error { message := "Network Error" }

/-- The result of `createPayment` run against the always-failing transport. -/
def networkFailRun : DokuPaymentResponse :=
  createPayment cfgSample allOk allOk samplePayment "req-123"
    "2023-01-01T00:00:00Z" networkFailTransport

/-- A transport that immediately returns `200` with the empty JSON object
as body. -/
def emptyOkTransport : Nat → Except JsError Response :=
  fun _ => Except.ok { status := 200, jsonBody := Except.ok (Json.obj []) }

/-- The result of `createPayment` run against the degenerate 2xx transport. -/
def emptyOkRun : DokuPaymentResponse :=
  createPayment cfgSample allOk allOk samplePayment "req-123"
    "2023-01-01T00:00:00Z" emptyOkTransport

/-- The nested response envelope used by the repository's success test. -/
def fullEnvelope : Json :=
  Json.obj [("response", Json.obj
    [("payment", Json.obj [("url", Json.str "https://example.com/payment")]),
     ("order", Json.obj [("invoice_number", Json.str "INV-123"),
                         ("amount", Json.num 10000)])])]

/-- A transport that returns `200` with the full nested envelope. -/
def envelopeTransport : Nat → Except JsError Response :=
  fun _ => Except.ok { status := 200, jsonBody := Except.ok fullEnvelope }

/-! ## Theorems -/

/-- A generated signature is never the empty string (it starts with the
algorithm tag). -/
theorem generateSignature_ne (c r tg d k ts : String) :
    generateSignature c r tg d k ts ≠ "" := by
  intro h
  have h2 := congrArg String.length h
  rw [generateSignature, String.length_append] at h2
  have h11 : ("HMACSHA256=" : String).length = 11 := rfl
  rw [h11] at h2
  have h0 : ("" : String).length = 0 := rfl
  rw [h0] at h2
  omega

/-- The component string equals the spec's canonical form. -/
theorem signatureComponent_eq_canonicalSpec (c r tg d ts : String) :
    signatureComponent c r tg d ts = canonicalSpec c r ts tg d := by
  by_cases hd : d = "" <;>
    simp only [signatureComponent, canonicalSpec, hd, ne_eq,
      not_true_eq_false, not_false_eq_true, ite_true, ite_false,
      if_true, if_false, String.append_assoc, String.append_empty]

/-- C2 — Canonical string and signature format: `generateSignature` is the
literal tag `HMACSHA256=` followed by the Base64 HMAC-SHA256, keyed by
`secretKey`, of the canonical string
`Client-Id:<c>\nRequest-Id:<r>\nRequest-Timestamp:<ts>\nRequest-Target:<tg>`
with no trailing newline, the `\nDigest:<d>` line appended iff the digest
is non-empty. -/
theorem signatureFormat (clientId requestId requestTarget digest secretKey
    requestTimestamp : String) :
    generateSignature clientId requestId requestTarget digest secretKey
        requestTimestamp =
      "HMACSHA256=" ++ base64Encode (hmacSHA256 (utf8Encode secretKey)
        (utf8Encode (canonicalSpec clientId requestId requestTimestamp
          requestTarget digest))) := by
  rw [generateSignature, signatureComponent_eq_canonicalSpec]

/-- C3 — Verifier failure policy: `validateSignature` is a total Boolean
function; it is `true` exactly when the four inbound fields are non-empty,
the inbound `clientId` equals the configured one, and the recomputed
signature string equals the received one exactly. In particular any empty
field or a client-id mismatch yields `false`. -/
theorem validateSignaturePolicy (cfg : DokuConfig) (body : String)
    (hdrs : SignatureHeaders) (requestTarget : String) :
    validateSignature cfg body hdrs requestTarget = true ↔
      (hdrs.signature ≠ "" ∧ hdrs.timestamp ≠ "" ∧ hdrs.requestId ≠ "" ∧
       hdrs.clientId ≠ "" ∧ hdrs.clientId = cfg.clientId ∧
       generateSignature hdrs.clientId hdrs.requestId requestTarget
         (generateDigest body) cfg.secretKey hdrs.timestamp =
           hdrs.signature) := by
  by_cases hs : hdrs.signature = "" <;> by_cases ht : hdrs.timestamp = "" <;>
    by_cases hr : hdrs.requestId = "" <;>
    by_cases hc : hdrs.clientId = "" <;>
    by_cases hcc : hdrs.clientId = cfg.clientId <;>
    simp [validateSignature, hs, ht, hr, hc, hcc]

/-- C1 — Sign/verify round-trip: a signature generated with the client's
configured `clientId` and `secretKey` over the digest of `body` validates
on that client for the same body, headers and request target. The
hypothesis `cfg.clientId ≠ ""` holds for every constructed client since
the constructor rejects empty client ids. -/
theorem signVerifyRoundTrip (cfg : DokuConfig)
    (body requestId requestTarget timestamp : String)
    (hreq : requestId ≠ "") (hts : timestamp ≠ "")
    (htg : requestTarget ≠ "") (hkey : cfg.secretKey ≠ "")
    (hcid : cfg.clientId ≠ "") :
    validateSignature cfg body
      { signature := generateSignature cfg.clientId requestId requestTarget
          (generateDigest body) cfg.secretKey timestamp,
        timestamp := timestamp, requestId := requestId,
        clientId := cfg.clientId } requestTarget = true := by
  simp [validateSignature, hreq, hts, hcid, generateSignature_ne]

/-- Witness for C1 at the test-suite's concrete configuration. -/
theorem signVerifyRoundTrip_witness :
    validateSignature
      { clientId := "TEST-CLIENT-ID", secretKey := "TEST-SECRET-KEY",
        isProduction := false } "\x7b\x7d"
      { signature := generateSignature "TEST-CLIENT-ID" "req-123"
          "/api/doku/callback" (generateDigest "\x7b\x7d")
          "TEST-SECRET-KEY" "2023-01-01T00:00:00Z",
        timestamp := "2023-01-01T00:00:00Z", requestId := "req-123",
        clientId := "TEST-CLIENT-ID" } "/api/doku/callback" = true :=
  signVerifyRoundTrip
    { clientId := "TEST-CLIENT-ID", secretKey := "TEST-SECRET-KEY",
      isProduction := false } "\x7b\x7d" "req-123" "/api/doku/callback"
    "2023-01-01T00:00:00Z" (by decide) (by decide) (by decide) (by decide)
    (by decide)

/-- C4 — Retry eligibility by status class: with any retry budget, a 2xx
response is returned immediately after a single attempt; a status in
`[400, 500)` is never retried and is returned immediately; a status
`≥ 500` is returned as-is when the budget is exhausted and otherwise
retries with a decremented budget. -/
theorem retryPolicy (transport : Nat → Except JsError Response)
    (n k : Nat) (r : Response) (h : transport k = Except.ok r) :
    ((200 ≤ r.status ∧ r.status < 300) →
       fetchWithRetry transport n k = Except.ok r ∧
       fetchAttempts transport n k = 1)
  ∧ ((400 ≤ r.status ∧ r.status < 500) →
       fetchWithRetry transport n k = Except.ok r ∧
       fetchAttempts transport n k = 1)
  ∧ (500 ≤ r.status →
       (fetchWithRetry transport 0 k = Except.ok r ∧
        fetchAttempts transport 0 k = 1) ∧
       (∀ m, fetchWithRetry transport (m + 1) k =
               fetchWithRetry transport m (k + 1) ∧
             fetchAttempts transport (m + 1) k =
               1 + fetchAttempts transport m (k + 1))) := by
  refine ⟨fun hst => ⟨?_, ?_⟩, fun hst => ⟨?_, ?_⟩,
    fun hst => ⟨⟨?_, ?_⟩, fun m => ⟨?_, ?_⟩⟩⟩
  · have hok : responseOk r = true := by simp [responseOk]; omega
    rw [fetchWithRetry.eq_def]; simp [h, hok]
  · have hok : responseOk r = true := by simp [responseOk]; omega
    cases n with
    | zero => simp [fetchAttempts]
    | succ m => simp [fetchAttempts, h, hok]
  · have hok : responseOk r = false := by simp [responseOk]; omega
    have h5 : ¬ 500 ≤ r.status := by omega
    rw [fetchWithRetry.eq_def]
    cases n with
    | zero => simp [h, hok]
    | succ m => simp [h, hok, h5]
  · have hok : responseOk r = false := by simp [responseOk]; omega
    have h5 : ¬ 500 ≤ r.status := by omega
    cases n with
    | zero => simp [fetchAttempts]
    | succ m => simp [fetchAttempts, h, hok, h5]
  · have hok : responseOk r = false := by simp [responseOk]; omega
    rw [fetchWithRetry.eq_def]; simp [h, hok]
  · simp [fetchAttempts]
  · have hok : responseOk r = false := by simp [responseOk]; omega
    rw [fetchWithRetry.eq_def]; simp [h, hok, hst]
  · have hok : responseOk r = false := by simp [responseOk]; omega
    simp [fetchAttempts, h, hok, hst]

/-- Witness for C4: a 502 with one unit of budget retries once and then
returns the 200 response of the second attempt. -/
theorem retryPolicy_witness :
    (400 ≤ (503 : Nat) ∧ (503 : Nat) < 500) ∨
      (fetchWithRetry
        (fun k => Except.ok { status := if k = 0 then 502 else 200,
                              jsonBody := Except.ok Json.null }) 1 0 =
        fetchWithRetry
        (fun k => Except.ok { status := if k = 0 then 502 else 200,
                              jsonBody := Except.ok Json.null }) 0 1) :=
  Or.inr
    (((retryPolicy
      (fun k => Except.ok { status := if k = 0 then 502 else 200,
                            jsonBody := Except.ok Json.null }) 1 0
      { status := 502, jsonBody := Except.ok Json.null }
      rfl).2.2 (by decide)).2 0).1

/-- C5 — Retry attempt bound and exhaustion: `fetchWithRetry` terminates
(it is a total function) and makes at most `n + 1` attempts with budget
`n`, hence at most 4 with the default budget of 3; a transport that
rejects on every attempt is tried exactly `n + 1` times and the final
error propagates to the caller as an error. -/
theorem retryBound (transport : Nat → Except JsError Response)
    (n k : Nat) :
    fetchAttempts transport n k ≤ n + 1
  ∧ fetchAttempts transport defaultRetries k ≤ 4
  ∧ (∀ e : Nat → JsError, (∀ i, transport i = Except.error (e i)) →
       fetchWithRetry transport n k = Except.error (e (k + n)) ∧
       fetchAttempts transport n k = n + 1) := by
  have hbound : ∀ m j, fetchAttempts transport m j ≤ m + 1 := by
    intro m
    induction m with
    | zero => intro j; simp [fetchAttempts]
    | succ p ih =>
      intro j
      cases hj : transport j with
      | ok r =>
        by_cases hok : responseOk r = true
        · simp [fetchAttempts, hj, hok]
        · by_cases h5 : 500 ≤ r.status
          · have := ih (j + 1)
            simp only [fetchAttempts, hj, hok, h5, Bool.false_eq_true,
              if_false, if_true, ite_false, ite_true]
            omega
          · simp [fetchAttempts, hj, hok, h5]
      | error e =>
        have := ih (j + 1)
        simp only [fetchAttempts, hj]
        omega
  have hfail : ∀ e : Nat → JsError, (∀ i, transport i = Except.error (e i)) →
      ∀ m j, fetchWithRetry transport m j = Except.error (e (j + m)) ∧
        fetchAttempts transport m j = m + 1 := by
    intro e he m
    induction m with
    | zero =>
      intro j
      refine ⟨?_, ?_⟩
      · rw [fetchWithRetry.eq_def]; simp [he j]
      · simp [fetchAttempts]
    | succ p ih =>
      intro j
      have h1 : fetchWithRetry transport (p + 1) j =
          fetchWithRetry transport p (j + 1) := by
        rw [fetchWithRetry.eq_def]; simp [he j]
      have h2 : fetchAttempts transport (p + 1) j =
          1 + fetchAttempts transport p (j + 1) := by
        simp [fetchAttempts, he j]
      have harg : j + 1 + p = j + (p + 1) := by omega
      rw [h1, h2, (ih (j + 1)).1, (ih (j + 1)).2, harg]
      exact ⟨rfl, by omega⟩
  exact ⟨hbound n k, Nat.le_trans (hbound defaultRetries k) (by decide),
    fun e he => hfail e he n k⟩

/-- Witness for C5: the always-rejecting transport with the default budget
of 3 makes exactly 4 attempts and ends in the error. -/
theorem retryBound_witness :
    fetchWithRetry networkFailTransport 3 0 =
        Except.error { message := "Network Error" } ∧
      fetchAttempts networkFailTransport 3 0 = 3 + 1 :=
  (retryBound networkFailTransport 3 0).2.2
    (fun _ => { message := "Network Error" }) (fun _ => rfl)

/-- A string has length zero exactly when it is empty. -/
theorem strLen_eq_zero (s : String) : s.length = 0 ↔ s = "" := by
  constructor
  · intro h
    cases s with
    | mk data =>
      cases data with
      | nil => rfl
      | cons a t => simp [String.length] at h
  · intro h
    subst h
    rfl

/-- A string has length below one exactly when it is empty. -/
theorem strLen_lt_one (s : String) : s.length < 1 ↔ s = "" := by
  rw [Nat.lt_one_iff, strLen_eq_zero]

/-- C10 — Constructor validation: `new DokuClient(config)` throws whenever
`clientId` is empty, `secretKey` is empty, or `isProduction` is not a
boolean; when it succeeds the stored credentials equal the supplied ones
and the base URL is determined solely by the `isProduction` flag. -/
theorem constructorPolicy (raw : RawConfig) :
    ((raw.clientId = "" ∨ raw.secretKey = "" ∨
        (∀ b, raw.isProduction ≠ Json.bool b)) →
      ∃ e, dokuClientNew raw = Except.error e)
  ∧ (∀ b, raw.isProduction = Json.bool b → raw.clientId ≠ "" →
      raw.secretKey ≠ "" →
      dokuClientNew raw = Except.ok
        { config := { clientId := raw.clientId, secretKey := raw.secretKey,
                      isProduction := b },
          baseUrl := if b then "https://api.doku.com"
            else "https://api-sandbox.doku.com" }) := by
  constructor
  · intro h
    have hne : configIssues raw ≠ [] := by
      rcases h with h | h | h
      · simp [configIssues, h]
      · simp [configIssues, h, List.append_eq_nil]
      · cases hp : raw.isProduction with
        | bool b => exact (h b hp).elim
        | null => simp [configIssues, hp, List.append_eq_nil]
        | num n => simp [configIssues, hp, List.append_eq_nil]
        | str s => simp [configIssues, hp, List.append_eq_nil]
        | arr xs => simp [configIssues, hp, List.append_eq_nil]
        | obj fs => simp [configIssues, hp, List.append_eq_nil]
    simp [dokuClientNew, configParse, hne]
  · intro b hb h1 h2
    have hi : configIssues raw = [] := by
      simp [configIssues, hb, strLen_lt_one, strLen_eq_zero, h1, h2]
    rw [dokuClientNew, configParse]
    rw [if_pos hi]
    simp [hb, jsTruthy]

/-- Witness for C10 at the test-suite configuration. -/
theorem constructorPolicy_witness :
    dokuClientNew
        { clientId := "TEST-CLIENT-ID", secretKey := "TEST-SECRET-KEY",
          isProduction := Json.bool false } =
      Except.ok
        { config := cfgSample,
          baseUrl := "https://api-sandbox.doku.com" } :=
  (constructorPolicy
      { clientId := "TEST-CLIENT-ID", secretKey := "TEST-SECRET-KEY",
        isProduction := Json.bool false }).2
    false rfl (by decide) (by decide)

/-- C9 — Request-body defaults for schema-accepted input:
`payment_due_date` is the supplied `expiredTime` and `60` when it is
absent; `payment_method_types` is the caller's list (even an empty one)
and the fixed 18-entry default list when absent; the customer id is
`customerEmail` when present and `"GUEST-"` plus the first 8 characters
of the generated request id when it is absent. -/
theorem requestBodyDefaults (emailOk urlOk : String → Bool)
    (d : DokuPaymentRequest) (requestId : String)
    (h : paymentRequestParse emailOk urlOk d = Except.ok d) :
    (∀ t, d.expiredTime = some t →
       (buildRequestBody d d requestId).payment.payment_due_date = t)
  ∧ (d.expiredTime = none →
       (buildRequestBody d d requestId).payment.payment_due_date = 60)
  ∧ (∀ l, d.paymentMethodTypes = some l →
       (buildRequestBody d d requestId).payment.payment_method_types = l)
  ∧ (d.paymentMethodTypes = none →
       (buildRequestBody d d requestId).payment.payment_method_types =
         defaultPaymentMethods)
  ∧ defaultPaymentMethods.length = 18
  ∧ (d.customerEmail ≠ "" →
       (buildRequestBody d d requestId).customer.id = d.customerEmail)
  ∧ (d.customerEmail = "" →
       (buildRequestBody d d requestId).customer.id =
         "GUEST-" ++ strSlice8 requestId) := by
  have hiss : paymentRequestIssues emailOk urlOk d = [] := by
    by_cases hc : paymentRequestIssues emailOk urlOk d = []
    · exact hc
    · simp [paymentRequestParse, hc] at h
  refine ⟨fun t ht => ?_, fun ht => ?_, fun l hl => ?_, fun hl => ?_,
    by decide, fun he => ?_, fun he => ?_⟩
  · have ht0 : ¬ (t ≤ 0) := by
      intro hle
      rw [paymentRequestIssues, ht] at hiss
      simp [hle, List.append_eq_nil] at hiss
    have htne : t ≠ 0 := by omega
    simp [buildRequestBody, jsOrInt, ht, htne]
  · simp [buildRequestBody, jsOrInt, ht]
  · simp [buildRequestBody, hl]
  · simp [buildRequestBody, hl]
  · simp [buildRequestBody, jsOrS, he]
  · simp [buildRequestBody, jsOrS, he]

/-- Witness for C9 at the test-suite's payment input. -/
theorem requestBodyDefaults_witness :
    (buildRequestBody samplePayment samplePayment "req-123").payment.payment_due_date = 60
  ∧ (buildRequestBody samplePayment samplePayment "req-123").customer.id =
      "john@example.com" :=
  ⟨(requestBodyDefaults allOk allOk samplePayment "req-123" rfl).2.1 rfl,
   (requestBodyDefaults allOk allOk samplePayment "req-123" rfl).2.2.2.2.2.1
     (by decide)⟩

/-- If the `try` block returns a failed result, that result carries a
message and details. -/
theorem createPaymentTry_false_shape (config : DokuConfig)
    (emailOk urlOk : String → Bool) (paymentData : DokuPaymentRequest)
    (requestId requestTimestamp : String)
    (transport : Nat → Except JsError Response) (r : DokuPaymentResponse)
    (h : createPaymentTry config emailOk urlOk paymentData requestId
      requestTimestamp transport = Except.ok r)
    (hf : r.success = false) : r.message.isSome ∧ r.details.isSome := by
  unfold createPaymentTry at h
  split at h
  · exact absurd h (by simp)
  · simp only [] at h
    split at h
    · exact absurd h (by simp)
    · split at h
      · split at h
        · exact absurd h (by simp)
        · cases h
          simp
      · split at h
        · exact absurd h (by simp)
        · cases h
          simp at hf

/-- C6 — the top-level `catch` of `createPayment` converts a transport
failure into a failed result, but with `message = error.message`
(`"Network Error"`), not the claimed `"Internal server error"`; the
repository's own tests expect `"Internal server error"` here. -/
theorem createPaymentMessage_networkFailure :
    networkFailRun.success = false
  ∧ networkFailRun.message = some (Json.str "Network Error")
  ∧ networkFailRun.message ≠ some (Json.str "Internal server error")
  ∧ networkFailRun.details =
      some (Diag.thrown (Thrown.js { message := "Network Error" })) := by
  refine ⟨rfl, rfl, ?_, rfl⟩
  intro h
  rw [show networkFailRun.message = some (Json.str "Network Error") from rfl]
    at h
  simp at h

/-- Counterexample to C7 as stated: a 2xx response whose JSON body is the
empty object yields `success = true` with `paymentUrl` and
`invoiceNumber` both absent. -/
theorem successWithoutUrl :
    emptyOkRun.success = true ∧ emptyOkRun.paymentUrl = none ∧
      emptyOkRun.invoiceNumber = none :=
  ⟨rfl, rfl, rfl⟩

/-- C7 (amended) — every failed result carries a message and a diagnostic
payload in `details`; every successful result carries exactly the payment
URL and invoice number extracted from the provider's response envelope
(nested `response` shape first, flat shape as fallback), so they are
present whenever the response supplies them. -/
theorem paymentResultShape (config : DokuConfig)
    (emailOk urlOk : String → Bool) (paymentData : DokuPaymentRequest)
    (requestId requestTimestamp : String)
    (transport : Nat → Except JsError Response) :
    ((createPayment config emailOk urlOk paymentData requestId
        requestTimestamp transport).success = false →
      (createPayment config emailOk urlOk paymentData requestId
        requestTimestamp transport).message.isSome ∧
      (createPayment config emailOk urlOk paymentData requestId
        requestTimestamp transport).details.isSome)
  ∧ (∀ resp j,
      paymentRequestParse emailOk urlOk paymentData =
        Except.ok paymentData →
      fetchWithRetry transport defaultRetries 0 = Except.ok resp →
      responseOk resp = true → resp.jsonBody = Except.ok j →
      (createPayment config emailOk urlOk paymentData requestId
        requestTimestamp transport).success = true ∧
      (createPayment config emailOk urlOk paymentData requestId
        requestTimestamp transport).paymentUrl = extractPaymentUrl j ∧
      (createPayment config emailOk urlOk paymentData requestId
        requestTimestamp transport).invoiceNumber =
          extractInvoiceNumber j) := by
  constructor
  · intro hfalse
    cases htry : createPaymentTry config emailOk urlOk paymentData requestId
        requestTimestamp transport with
    | error e => simp [createPayment, htry]
    | ok r =>
      have hr : createPayment config emailOk urlOk paymentData requestId
          requestTimestamp transport = r := by
        simp [createPayment, htry]
      rw [hr] at hfalse ⊢
      exact createPaymentTry_false_shape config emailOk urlOk paymentData
        requestId requestTimestamp transport r htry hfalse
  · intro resp j hp hf hok hj
    have htry : createPaymentTry config emailOk urlOk paymentData requestId
        requestTimestamp transport = Except.ok
          { success := true, paymentUrl := extractPaymentUrl j,
            invoiceNumber := extractInvoiceNumber j,
            amount := extractAmount j, message := none,
            details := none } := by
      unfold createPaymentTry
      rw [hp, hf]
      simp [hok, hj]
    simp [createPayment, htry]

/-- Witness for the amended C7 at the test-suite's nested envelope. -/
theorem paymentResultShape_witness :
    (createPayment cfgSample allOk allOk samplePayment "req-123"
        "2023-01-01T00:00:00Z" envelopeTransport).success = true
  ∧ (createPayment cfgSample allOk allOk samplePayment "req-123"
        "2023-01-01T00:00:00Z" envelopeTransport).paymentUrl =
      extractPaymentUrl fullEnvelope
  ∧ (createPayment cfgSample allOk allOk samplePayment "req-123"
        "2023-01-01T00:00:00Z" envelopeTransport).invoiceNumber =
      extractInvoiceNumber fullEnvelope :=
  (paymentResultShape cfgSample allOk allOk samplePayment "req-123"
      "2023-01-01T00:00:00Z" envelopeTransport).2
    { status := 200, jsonBody := Except.ok fullEnvelope } fullEnvelope
    rfl rfl rfl rfl

/-! ## Lemmas for C8 -/

theorem wordsToBytes_length (ws : List Nat) :
    (wordsToBytes ws).length = 4 * ws.length := by
  induction ws with
  | nil => rfl
  | cons w t ih =>
    simp only [wordsToBytes, List.map_cons, List.flatten_cons] at ih ⊢
    simp only [List.length_append, ih, wordBytes, List.length_cons,
      List.length_nil]
    omega

theorem wordsToBytes_lt (ws : List Nat) :
    ∀ x ∈ wordsToBytes ws, x < 256 := by
  induction ws with
  | nil => simp [wordsToBytes]
  | cons w t ih =>
    intro x hx
    simp only [wordsToBytes, List.map_cons, List.flatten_cons,
      List.mem_append] at hx
    rcases hx with hx | hx
    · simp only [wordBytes, List.mem_cons, List.not_mem_nil, or_false]
        at hx
      rcases hx with h | h | h | h <;> subst h <;>
        exact Nat.mod_lt _ (by omega)
    · exact ih x hx

theorem sha256_length (msg : List Nat) : (sha256 msg).length = 32 := by
  simp [sha256, wordsToBytes_length]

theorem sha256_lt (msg : List Nat) : ∀ x ∈ sha256 msg, x < 256 := by
  intro x hx
  simp only [sha256] at hx
  exact wordsToBytes_lt _ x hx

theorem hmacSHA256_length (key msg : List Nat) :
    (hmacSHA256 key msg).length = 32 := by
  simp [hmacSHA256, sha256_length]

theorem hmacSHA256_lt (key msg : List Nat) :
    ∀ x ∈ hmacSHA256 key msg, x < 256 := by
  intro x hx
  simp only [hmacSHA256] at hx
  exact sha256_lt _ x hx

theorem ofBytes_lt (l : List Nat) (h : ∀ x ∈ l, x < 256) :
    ofBytes l < 256 ^ l.length := by
  induction l with
  | nil => simp [ofBytes]
  | cons b t ih =>
    have hb : b < 256 := h b (List.mem_cons_self b t)
    have hr : ofBytes t < 256 ^ t.length :=
      ih (fun x hx => h x (List.mem_cons_of_mem b hx))
    simp only [ofBytes, List.length_cons]
    calc b * 256 ^ t.length + ofBytes t
        < b * 256 ^ t.length + 256 ^ t.length := by omega
      _ = (b + 1) * 256 ^ t.length := by ring
      _ ≤ 256 * 256 ^ t.length :=
          Nat.mul_le_mul_right _ (by omega)
      _ = 256 ^ (t.length + 1) := by
          rw [Nat.pow_succ]
          ring

theorem ofBytes_inj (l1 : List Nat) : ∀ l2 : List Nat,
    l1.length = l2.length → (∀ x ∈ l1, x < 256) → (∀ x ∈ l2, x < 256) →
    ofBytes l1 = ofBytes l2 → l1 = l2 := by
  induction l1 with
  | nil =>
    intro l2 hlen _ _ _
    cases l2 with
    | nil => rfl
    | cons b t => simp at hlen
  | cons b1 t1 ih =>
    intro l2 hlen hb1 hb2 hv
    cases l2 with
    | nil => simp at hlen
    | cons b2 t2 =>
      have htlen : t1.length = t2.length := by
        simpa using hlen
      have hN : 0 < 256 ^ t1.length := Nat.pow_pos (by omega)
      have hr1 : ofBytes t1 < 256 ^ t1.length :=
        ofBytes_lt t1 (fun x hx => hb1 x (List.mem_cons_of_mem b1 hx))
      have hr2 : ofBytes t2 < 256 ^ t1.length := by
        rw [htlen]
        exact ofBytes_lt t2 (fun x hx => hb2 x (List.mem_cons_of_mem b2 hx))
      simp only [ofBytes, htlen] at hv
      rw [← htlen] at hv
      have e1 : (b1 * 256 ^ t1.length + ofBytes t1) / 256 ^ t1.length =
          b1 := by
        rw [Nat.add_comm, Nat.add_mul_div_right _ _ hN,
          Nat.div_eq_of_lt hr1]
        omega
      have e2 : (b2 * 256 ^ t1.length + ofBytes t2) / 256 ^ t1.length =
          b2 := by
        rw [Nat.add_comm, Nat.add_mul_div_right _ _ hN,
          Nat.div_eq_of_lt hr2]
        omega
      have hb : b1 = b2 := by
        rw [← e1, ← e2, hv]
      have ht : ofBytes t1 = ofBytes t2 := by
        rw [hb] at hv
        omega
      rw [hb, ih t2 htlen (fun x hx => hb1 x (List.mem_cons_of_mem b1 hx))
        (fun x hx => hb2 x (List.mem_cons_of_mem b2 hx)) ht]

/-- The HMAC bytes signed for a given request id, with the other canonical
fields fixed at concrete values. -/
def collisionProbe (r : String) : List Nat :=
  hmacSHA256 (utf8Encode "TEST-SECRET-KEY")
    (utf8Encode (signatureComponent "TEST-CLIENT-ID" r "/api/doku/callback"
      "digest" "2023-01-01T00:00:00Z"))

/-- Counterexample to C8 as stated: signatures live in a finite set (32
HMAC bytes), request ids do not, so two distinct request ids — all other
canonical fields equal — must produce the same signature string. No such
pair is concretely known (that would be an HMAC-SHA256 collision), but
the universally quantified claim is false. -/
theorem signatureCollisionExists :
    ¬ (∀ r1 r2 : String, r1 ≠ r2 →
        generateSignature "TEST-CLIENT-ID" r1 "/api/doku/callback" "digest"
          "TEST-SECRET-KEY" "2023-01-01T00:00:00Z" ≠
        generateSignature "TEST-CLIENT-ID" r2 "/api/doku/callback" "digest"
          "TEST-SECRET-KEY" "2023-01-01T00:00:00Z") := by
  intro hclaim
  have hclen : ∀ r : String, (collisionProbe r).length = 32 :=
    fun _ => hmacSHA256_length _ _
  have hclt : ∀ r : String, ∀ x ∈ collisionProbe r, x < 256 :=
    fun _ => hmacSHA256_lt _ _
  have hgen : ∀ r : String,
      generateSignature "TEST-CLIENT-ID" r "/api/doku/callback" "digest"
        "TEST-SECRET-KEY" "2023-01-01T00:00:00Z" =
      "HMACSHA256=" ++ base64Encode (collisionProbe r) := fun _ => rfl
  have hmap : ∀ r : String, ofBytes (collisionProbe r) < 256 ^ 32 := by
    intro r
    have h2 := ofBytes_lt (collisionProbe r) (hclt r)
    rwa [hclen r] at h2
  obtain ⟨r1, r2, hne, heq⟩ :=
    Finite.exists_ne_map_eq_of_infinite
      (fun r : String => (⟨ofBytes (collisionProbe r), hmap r⟩ :
        Fin (256 ^ 32)))
  apply hclaim r1 r2 hne
  have hv : ofBytes (collisionProbe r1) = ofBytes (collisionProbe r2) := by
    have h := heq
    simp only [Fin.mk.injEq] at h
    exact h
  have hlen : (collisionProbe r1).length = (collisionProbe r2).length := by
    rw [hclen r1, hclen r2]
  have hbytes : collisionProbe r1 = collisionProbe r2 :=
    ofBytes_inj (collisionProbe r1) (collisionProbe r2) hlen
      (hclt r1) (hclt r2) hv
  rw [hgen r1, hgen r2, hbytes]

/-- The canonical string's byte list in fully right-associated form. -/
theorem canonicalSpec_data (c r ts tg d : String) :
    (canonicalSpec c r ts tg d).data =
      "Client-Id:".data ++ (c.data ++ ("\n".data ++ ("Request-Id:".data ++
        (r.data ++ ("\n".data ++ ("Request-Timestamp:".data ++ (ts.data ++
          ("\n".data ++ ("Request-Target:".data ++ (tg.data ++
            (if d = "" then ("" : String)
             else "\n" ++ "Digest:" ++ d).data)))))))))) := by
  simp only [canonicalSpec, String.data_append, List.append_assoc]

theorem canonicalSpec_inj_c {c c' r ts tg d : String}
    (h : canonicalSpec c r ts tg d = canonicalSpec c' r ts tg d) :
    c = c' := by
  have h' := congrArg String.data h
  rw [canonicalSpec_data, canonicalSpec_data] at h'
  replace h' := List.append_cancel_left h'
  exact String.ext (List.append_cancel_right h')

theorem canonicalSpec_inj_r {c r r' ts tg d : String}
    (h : canonicalSpec c r ts tg d = canonicalSpec c r' ts tg d) :
    r = r' := by
  have h' := congrArg String.data h
  rw [canonicalSpec_data, canonicalSpec_data] at h'
  iterate 4 replace h' := List.append_cancel_left h'
  exact String.ext (List.append_cancel_right h')

theorem canonicalSpec_inj_ts {c r ts ts' tg d : String}
    (h : canonicalSpec c r ts tg d = canonicalSpec c r ts' tg d) :
    ts = ts' := by
  have h' := congrArg String.data h
  rw [canonicalSpec_data, canonicalSpec_data] at h'
  iterate 7 replace h' := List.append_cancel_left h'
  exact String.ext (List.append_cancel_right h')

theorem canonicalSpec_inj_tg {c r ts tg tg' d : String}
    (h : canonicalSpec c r ts tg d = canonicalSpec c r ts tg' d) :
    tg = tg' := by
  have h' := congrArg String.data h
  rw [canonicalSpec_data, canonicalSpec_data] at h'
  iterate 10 replace h' := List.append_cancel_left h'
  exact String.ext (List.append_cancel_right h')

theorem canonicalSpec_inj_d {c r ts tg d d' : String}
    (h : canonicalSpec c r ts tg d = canonicalSpec c r ts tg d') :
    d = d' := by
  have h' := congrArg String.data h
  rw [canonicalSpec_data, canonicalSpec_data] at h'
  iterate 11 replace h' := List.append_cancel_left h'
  by_cases h1 : d = "" <;> by_cases h2 : d' = ""
  · exact h1.trans h2.symm
  · rw [if_pos h1, if_neg h2] at h'
    have hlen := congrArg List.length h'
    have hd : d'.data.length ≠ 0 := by
      intro h0
      exact h2 (String.ext (List.length_eq_zero.mp h0))
    simp only [String.data_append, List.length_append] at hlen
    have e0 : ("" : String).data.length = 0 := rfl
    have e1 : ("\n" : String).data.length = 1 := rfl
    have e2 : ("Digest:" : String).data.length = 7 := rfl
    rw [e0, e1, e2] at hlen
    omega
  · rw [if_neg h1, if_pos h2] at h'
    have hlen := congrArg List.length h'
    have hd : d.data.length ≠ 0 := by
      intro h0
      exact h1 (String.ext (List.length_eq_zero.mp h0))
    simp only [String.data_append, List.length_append] at hlen
    have e0 : ("" : String).data.length = 0 := rfl
    have e1 : ("\n" : String).data.length = 1 := rfl
    have e2 : ("Digest:" : String).data.length = 7 := rfl
    rw [e0, e1, e2] at hlen
    omega
  · rw [if_neg h1, if_neg h2] at h'
    simp only [String.data_append, List.append_assoc] at h'
    iterate 2 replace h' := List.append_cancel_left h'
    exact String.ext h'

/-- C8 (amended) — changing exactly one canonical field (clientId,
requestId, timestamp, targetPath, or digest) always changes the canonical
component string, i.e. the signed bytes; the signature strings then differ
unless HMAC-SHA256 itself collides on the two canonical strings (such
collisions exist by counting but none is concretely known). -/
theorem canonicalFieldSensitivity (c c' r r' ts ts' tg tg' d d' : String) :
    (c ≠ c' → signatureComponent c r tg d ts ≠
      signatureComponent c' r tg d ts)
  ∧ (r ≠ r' → signatureComponent c r tg d ts ≠
      signatureComponent c r' tg d ts)
  ∧ (ts ≠ ts' → signatureComponent c r tg d ts ≠
      signatureComponent c r tg d ts')
  ∧ (tg ≠ tg' → signatureComponent c r tg d ts ≠
      signatureComponent c r tg' d ts)
  ∧ (d ≠ d' → signatureComponent c r tg d ts ≠
      signatureComponent c r tg d' ts) := by
  refine ⟨?_, ?_, ?_, ?_, ?_⟩
  · intro hne heq
    rw [signatureComponent_eq_canonicalSpec,
      signatureComponent_eq_canonicalSpec] at heq
    exact hne (canonicalSpec_inj_c heq)
  · intro hne heq
    rw [signatureComponent_eq_canonicalSpec,
      signatureComponent_eq_canonicalSpec] at heq
    exact hne (canonicalSpec_inj_r heq)
  · intro hne heq
    rw [signatureComponent_eq_canonicalSpec,
      signatureComponent_eq_canonicalSpec] at heq
    exact hne (canonicalSpec_inj_ts heq)
  · intro hne heq
    rw [signatureComponent_eq_canonicalSpec,
      signatureComponent_eq_canonicalSpec] at heq
    exact hne (canonicalSpec_inj_tg heq)
  · intro hne heq
    rw [signatureComponent_eq_canonicalSpec,
      signatureComponent_eq_canonicalSpec] at heq
    exact hne (canonicalSpec_inj_d heq)

/-- Witness for the amended C8: two component strings differing only in
the client id differ. -/
theorem canonicalFieldSensitivity_witness :
    signatureComponent "a" "r" "/t" "dg" "ts" ≠
      signatureComponent "b" "r" "/t" "dg" "ts" :=
  (canonicalFieldSensitivity "a" "b" "r" "r" "ts" "ts" "/t" "/t" "dg"
    "dg").1 (by decide)

end Doku
